import Mathlib

set_option maxHeartbeats 1000000

/-!
Shallow embedding of the hass_sensorlinx Home Assistant integration
(coordinator.py, binary_sensor.py, sensor.py, switch.py, climate.py).
Python dictionaries are modelled as association lists where a later binding
shadows an earlier one (Python dict assignment overwrites), vendor-client
calls are modelled as oracles returning `Except`, and Python exceptions as
values of `PyExc`.  Numbers are modelled as `Int`; Python `None` as
`PValue.null` (for parameter values) or `Option.none` (for identifiers).
-/

/-- Python value stored in a device's `parameters` mapping: the vendor
getters return booleans, numbers (modelled as `Int`) or strings; `null`
models Python `None`. -/
inductive PValue where
  | null
  | b (v : Bool)
  | n (v : Int)
  | s (v : String)
  deriving DecidableEq

/-- Python truthiness of a parameter value (`bool(value)`). -/
def PValue.truthy : PValue → Bool
  | .null => false
  | .b v => v
  | .n v => v != 0
  | .s v => v != ""

/-- Python exception raised by a vendor-client call.  The coordinator
distinguishes only `ConfigEntryAuthFailed` from every other `Exception`. -/
inductive PyExc where
  | configEntryAuthFailed (msg : String)
  | other (msg : String)
  deriving DecidableEq

/-- Python `dict` lookup on an association list: the LAST binding for a key
wins, mirroring dict assignment overwriting earlier values. -/
def dictGet {K V : Type} [DecidableEq K] (m : List (K × V)) (k : K) : Option V :=
  m.foldl (fun acc p => if p.1 = k then some p.2 else acc) none

/-- Python `dict` assignment `m[k] = v`, as appending a binding (lookup
takes the last binding, so this models overwrite). -/
def dictSet {K V : Type} [DecidableEq K] (m : List (K × V)) (k : K) (v : V) : List (K × V) :=
  m ++ [(k, v)]

/-- Python `k in m` for a dict. -/
def dmem {K V : Type} [DecidableEq K] (m : List (K × V)) (k : K) : Bool :=
  (dictGet m k).isSome

theorem dictGet_nil {K V : Type} [DecidableEq K] (k : K) :
    dictGet ([] : List (K × V)) k = none := rfl

theorem dictGet_dictSet_self {K V : Type} [DecidableEq K] (m : List (K × V)) (k : K) (v : V) :
    dictGet (dictSet m k v) k = some v := by
  simp [dictGet, dictSet, List.foldl_append]

theorem dictGet_dictSet_ne {K V : Type} [DecidableEq K] (m : List (K × V)) (j k : K) (v : V)
    (h : j ≠ k) : dictGet (dictSet m j v) k = dictGet m k := by
  simp [dictGet, dictSet, List.foldl_append, h]

theorem dmem_dictSet_self {K V : Type} [DecidableEq K] (m : List (K × V)) (k : K) (v : V) :
    dmem (dictSet m k v) k = true := by
  simp [dmem, dictGet_dictSet_self]

theorem dmem_dictSet_mono {K V : Type} [DecidableEq K] (m : List (K × V)) (j k : K) (v : V)
    (h : dmem m k = true) : dmem (dictSet m j v) k = true := by
  by_cases hj : j = k
  · subst hj; simp [dmem, dictGet_dictSet_self]
  · simpa [dmem, dictGet_dictSet_ne m j k v hj] using h

/-! Parameter keys written by the coordinator and read by the entity
platforms (string literals from the source). -/

def keyPermanentHeatDemand : String := "permanent_heat_demand"
def keyPermanentCoolDemand : String := "permanent_cool_demand"
def keyHvacMode : String := "hvac_mode"
def keyHotTankMinTemp : String := "hot_tank_min_temp"
def keyHotTankMaxTemp : String := "hot_tank_max_temp"
def keyColdTankMinTemp : String := "cold_tank_min_temp"
def keyColdTankMaxTemp : String := "cold_tank_max_temp"
def keyFirmwareVersion : String := "firmware_version"
def keyDeviceType : String := "device_type"
def keyWarmWeatherShutdown : String := "warm_weather_shutdown"
def keyColdWeatherShutdown : String := "cold_weather_shutdown"
def keyTemperatureHotTank : String := "temperature_hot_tank"
def keyTemperatureColdTank : String := "temperature_cold_tank"
def keyTemperatureOutdoor : String := "temperature_outdoor"
def keyTargetTemperatureHotTank : String := "target_temperature_hot_tank"
def keyTargetTemperatureColdTank : String := "target_temperature_cold_tank"

/-- A device's flat `parameters` mapping. -/
abbrev Params := List (String × PValue)

/-- One entry of the mapping returned by `SensorlinxDevice.get_temperatures`:
`actual`/`target` are optional `Temperature` objects whose `.value` field is
stored (a present object is always truthy in Python). -/
structure TempReading where
  actual : Option Int
  target : Option Int
  deriving DecidableEq

/-- Oracle for the per-parameter vendor calls made for one device in
`SensorLinxDataUpdateCoordinator._async_update_data` (coordinator.py lines
85-153).  `Except.error` models the call raising; `temperatures` may also
return a falsy value (`none`). -/
structure DeviceCalls where
  temperatures : Except PyExc (Option (List (String × TempReading)))
  permanentHeatDemand : Except PyExc PValue
  permanentCoolDemand : Except PyExc PValue
  hvacModePriority : Except PyExc Int
  hotTankMinTemp : Except PyExc PValue
  hotTankMaxTemp : Except PyExc PValue
  coldTankMinTemp : Except PyExc PValue
  coldTankMaxTemp : Except PyExc PValue
  firmwareVersion : Except PyExc PValue
  deviceType : Except PyExc PValue
  warmWeatherShutdown : Except PyExc PValue
  coldWeatherShutdown : Except PyExc PValue

/-- Mirrors `temp_name.lower().replace(' ', '_')` (coordinator.py line 89). -/
def normName (s : String) : String :=
  (s.toLower).replace (" ") ("_")

def strTemperature : String := "temperature_"
def strTargetTemperature : String := "target_temperature_"

/-- Key `f"temperature_{temp_name.lower().replace(' ', '_')}"`. -/
def tempKeyActual (name : String) : String := strTemperature ++ normName name

/-- Key `f"target_temperature_{temp_name.lower().replace(' ', '_')}"`. -/
def tempKeyTarget (name : String) : String := strTargetTemperature ++ normName name

/-- Mirrors coordinator.py lines 87-91: one iteration of
`for temp_name, temp_data in temps.items()`. -/
def tempStep (ps : Params) (p : String × TempReading) : Params :=
  let ps1 := match p.2.actual with
    | some v => dictSet ps (tempKeyActual p.1) (PValue.n v)
    | none => ps
  match p.2.target with
  | some v => dictSet ps1 (tempKeyTarget p.1) (PValue.n v)
  | none => ps1

/-- The temperature block (coordinator.py lines 85-91) folded over the
returned mapping, starting from the empty `parameters` dict. -/
def tempParams (l : List (String × TempReading)) : Params :=
  l.foldl tempStep []

/-- Mirrors one `try: parameters[key] = await ...` / `except: pass` block. -/
def tryInsert (ps : Params) (k : String) (r : Except PyExc PValue) : Params :=
  match r with
  | .ok v => dictSet ps k v
  | .error _ => ps

/-- Value a single guarded parameter read contributes: its result when the
call succeeds, nothing when it raises. -/
def exVal (r : Except PyExc PValue) : Option PValue :=
  match r with
  | .ok v => some v
  | .error _ => none

/-- Mirrors `mode_map = {0: "heat", 1: "cool", 2: "auto"}` and
`mode_map.get(hvac_mode, "auto")` (coordinator.py lines 107-108). -/
def modeMap (m : Int) : String :=
  if m = 0 then "heat" else if m = 1 then "cool" else "auto"

/-- Mirrors `if temps:` followed by the loop of lines 87-91: a falsy result
contributes nothing, otherwise the readings are folded into the dict. -/
def tempBlock (topt : Option (List (String × TempReading))) : Params :=
  match topt with
  | none => []
  | some l => tempParams l

/-- Parameter extraction for one device (coordinator.py lines 82-156).
The `temperatures` fetch (line 85) runs inside the outer `try` without an
inner guard, so its failure is caught at line 155 leaving `parameters`
empty; every other getter sits in its own `try/except: pass` block. -/
def extractParameters (c : DeviceCalls) : Params :=
  match c.temperatures with
  | .error _ => []
  | .ok topt =>
    let ps := tempBlock topt
    let ps := tryInsert ps keyPermanentHeatDemand c.permanentHeatDemand
    let ps := tryInsert ps keyPermanentCoolDemand c.permanentCoolDemand
    let ps := tryInsert ps keyHvacMode
      (Except.map (fun m => PValue.s (modeMap m)) c.hvacModePriority)
    let ps := tryInsert ps keyHotTankMinTemp c.hotTankMinTemp
    let ps := tryInsert ps keyHotTankMaxTemp c.hotTankMaxTemp
    let ps := tryInsert ps keyColdTankMinTemp c.coldTankMinTemp
    let ps := tryInsert ps keyColdTankMaxTemp c.coldTankMaxTemp
    let ps := tryInsert ps keyFirmwareVersion c.firmwareVersion
    let ps := tryInsert ps keyDeviceType c.deviceType
    let ps := tryInsert ps keyWarmWeatherShutdown c.warmWeatherShutdown
    let ps := tryInsert ps keyColdWeatherShutdown c.coldWeatherShutdown
    ps

theorem dictGet_tryInsert_ne (ps : Params) (j : String) (r : Except PyExc PValue) (k : String)
    (h : j ≠ k) : dictGet (tryInsert ps j r) k = dictGet ps k := by
  cases r with
  | ok v => simp [tryInsert, dictGet_dictSet_ne ps j k v h]
  | error e => rfl

theorem dictGet_tryInsert_self (ps : Params) (k : String) (r : Except PyExc PValue)
    (h : dictGet ps k = none) : dictGet (tryInsert ps k r) k = exVal r := by
  cases r with
  | ok v => simp [tryInsert, exVal, dictGet_dictSet_self]
  | error e => simpa [tryInsert, exVal] using h

def tChar : Char := 't'

theorem ne_of_data_head {a b : String} (h : a.data.head? ≠ b.data.head?) : a ≠ b :=
  fun e => h (by rw [e])

theorem tempKeyActual_head (name : String) :
    (tempKeyActual name).data.head? = some tChar := by
  rw [tempKeyActual, String.data_append]
  rfl

theorem tempKeyTarget_head (name : String) :
    (tempKeyTarget name).data.head? = some tChar := by
  rw [tempKeyTarget, String.data_append]
  rfl

theorem dictGet_tempStep_ne (ps : Params) (p : String × TempReading) (k : String)
    (hk : k.data.head? ≠ some tChar) : dictGet (tempStep ps p) k = dictGet ps k := by
  have ha : tempKeyActual p.1 ≠ k :=
    ne_of_data_head (by rw [tempKeyActual_head]; exact Ne.symm hk)
  have hb : tempKeyTarget p.1 ≠ k :=
    ne_of_data_head (by rw [tempKeyTarget_head]; exact Ne.symm hk)
  unfold tempStep
  cases p.2.actual <;> cases p.2.target <;>
    simp [dictGet_dictSet_ne, ha, hb]

theorem dictGet_tempFold (l : List (String × TempReading)) (ps : Params) (k : String)
    (hk : k.data.head? ≠ some tChar) (hps : dictGet ps k = none) :
    dictGet (l.foldl tempStep ps) k = none := by
  induction l generalizing ps with
  | nil => simpa using hps
  | cons p t ih =>
    rw [List.foldl_cons]
    exact ih _ (by rw [dictGet_tempStep_ne ps p k hk]; exact hps)

theorem dictGet_tempBlock (topt : Option (List (String × TempReading))) (k : String)
    (hk : k.data.head? ≠ some tChar) : dictGet (tempBlock topt) k = none := by
  cases topt with
  | none => rfl
  | some l => exact dictGet_tempFold l [] k hk rfl


/-- Lookup of `keyPermanentHeatDemand` in the extracted parameters depends only on its
own vendor call, once the temperatures fetch has succeeded. -/
theorem dictGet_extract_phd (c : DeviceCalls)
    (topt : Option (List (String × TempReading)))
    (h : c.temperatures = Except.ok topt) :
    dictGet (extractParameters c) keyPermanentHeatDemand = exVal c.permanentHeatDemand := by
  simp only [extractParameters, h]
  rw [dictGet_tryInsert_ne _ keyColdWeatherShutdown _ keyPermanentHeatDemand (by decide),
      dictGet_tryInsert_ne _ keyWarmWeatherShutdown _ keyPermanentHeatDemand (by decide),
      dictGet_tryInsert_ne _ keyDeviceType _ keyPermanentHeatDemand (by decide),
      dictGet_tryInsert_ne _ keyFirmwareVersion _ keyPermanentHeatDemand (by decide),
      dictGet_tryInsert_ne _ keyColdTankMaxTemp _ keyPermanentHeatDemand (by decide),
      dictGet_tryInsert_ne _ keyColdTankMinTemp _ keyPermanentHeatDemand (by decide),
      dictGet_tryInsert_ne _ keyHotTankMaxTemp _ keyPermanentHeatDemand (by decide),
      dictGet_tryInsert_ne _ keyHotTankMinTemp _ keyPermanentHeatDemand (by decide),
      dictGet_tryInsert_ne _ keyHvacMode _ keyPermanentHeatDemand (by decide),
      dictGet_tryInsert_ne _ keyPermanentCoolDemand _ keyPermanentHeatDemand (by decide)]
  exact dictGet_tryInsert_self _ _ _ (dictGet_tempBlock topt keyPermanentHeatDemand (by decide))

/-- Lookup of `keyPermanentCoolDemand` in the extracted parameters depends only on its
own vendor call, once the temperatures fetch has succeeded. -/
theorem dictGet_extract_pcd (c : DeviceCalls)
    (topt : Option (List (String × TempReading)))
    (h : c.temperatures = Except.ok topt) :
    dictGet (extractParameters c) keyPermanentCoolDemand = exVal c.permanentCoolDemand := by
  simp only [extractParameters, h]
  rw [dictGet_tryInsert_ne _ keyColdWeatherShutdown _ keyPermanentCoolDemand (by decide),
      dictGet_tryInsert_ne _ keyWarmWeatherShutdown _ keyPermanentCoolDemand (by decide),
      dictGet_tryInsert_ne _ keyDeviceType _ keyPermanentCoolDemand (by decide),
      dictGet_tryInsert_ne _ keyFirmwareVersion _ keyPermanentCoolDemand (by decide),
      dictGet_tryInsert_ne _ keyColdTankMaxTemp _ keyPermanentCoolDemand (by decide),
      dictGet_tryInsert_ne _ keyColdTankMinTemp _ keyPermanentCoolDemand (by decide),
      dictGet_tryInsert_ne _ keyHotTankMaxTemp _ keyPermanentCoolDemand (by decide),
      dictGet_tryInsert_ne _ keyHotTankMinTemp _ keyPermanentCoolDemand (by decide),
      dictGet_tryInsert_ne _ keyHvacMode _ keyPermanentCoolDemand (by decide)]
  exact dictGet_tryInsert_self _ _ _ (by
    rw [dictGet_tryInsert_ne _ keyPermanentHeatDemand _ keyPermanentCoolDemand (by decide)]
    exact dictGet_tempBlock topt keyPermanentCoolDemand (by decide))

/-- Lookup of `keyHvacMode` in the extracted parameters depends only on its
own vendor call, once the temperatures fetch has succeeded. -/
theorem dictGet_extract_hvac (c : DeviceCalls)
    (topt : Option (List (String × TempReading)))
    (h : c.temperatures = Except.ok topt) :
    dictGet (extractParameters c) keyHvacMode = exVal (Except.map (fun m => PValue.s (modeMap m)) c.hvacModePriority) := by
  simp only [extractParameters, h]
  rw [dictGet_tryInsert_ne _ keyColdWeatherShutdown _ keyHvacMode (by decide),
      dictGet_tryInsert_ne _ keyWarmWeatherShutdown _ keyHvacMode (by decide),
      dictGet_tryInsert_ne _ keyDeviceType _ keyHvacMode (by decide),
      dictGet_tryInsert_ne _ keyFirmwareVersion _ keyHvacMode (by decide),
      dictGet_tryInsert_ne _ keyColdTankMaxTemp _ keyHvacMode (by decide),
      dictGet_tryInsert_ne _ keyColdTankMinTemp _ keyHvacMode (by decide),
      dictGet_tryInsert_ne _ keyHotTankMaxTemp _ keyHvacMode (by decide),
      dictGet_tryInsert_ne _ keyHotTankMinTemp _ keyHvacMode (by decide)]
  exact dictGet_tryInsert_self _ _ _ (by
    rw [dictGet_tryInsert_ne _ keyPermanentCoolDemand _ keyHvacMode (by decide),
        dictGet_tryInsert_ne _ keyPermanentHeatDemand _ keyHvacMode (by decide)]
    exact dictGet_tempBlock topt keyHvacMode (by decide))

/-- Lookup of `keyHotTankMinTemp` in the extracted parameters depends only on its
own vendor call, once the temperatures fetch has succeeded. -/
theorem dictGet_extract_htmin (c : DeviceCalls)
    (topt : Option (List (String × TempReading)))
    (h : c.temperatures = Except.ok topt) :
    dictGet (extractParameters c) keyHotTankMinTemp = exVal c.hotTankMinTemp := by
  simp only [extractParameters, h]
  rw [dictGet_tryInsert_ne _ keyColdWeatherShutdown _ keyHotTankMinTemp (by decide),
      dictGet_tryInsert_ne _ keyWarmWeatherShutdown _ keyHotTankMinTemp (by decide),
      dictGet_tryInsert_ne _ keyDeviceType _ keyHotTankMinTemp (by decide),
      dictGet_tryInsert_ne _ keyFirmwareVersion _ keyHotTankMinTemp (by decide),
      dictGet_tryInsert_ne _ keyColdTankMaxTemp _ keyHotTankMinTemp (by decide),
      dictGet_tryInsert_ne _ keyColdTankMinTemp _ keyHotTankMinTemp (by decide),
      dictGet_tryInsert_ne _ keyHotTankMaxTemp _ keyHotTankMinTemp (by decide)]
  exact dictGet_tryInsert_self _ _ _ (by
    rw [dictGet_tryInsert_ne _ keyHvacMode _ keyHotTankMinTemp (by decide),
        dictGet_tryInsert_ne _ keyPermanentCoolDemand _ keyHotTankMinTemp (by decide),
        dictGet_tryInsert_ne _ keyPermanentHeatDemand _ keyHotTankMinTemp (by decide)]
    exact dictGet_tempBlock topt keyHotTankMinTemp (by decide))

/-- Lookup of `keyHotTankMaxTemp` in the extracted parameters depends only on its
own vendor call, once the temperatures fetch has succeeded. -/
theorem dictGet_extract_htmax (c : DeviceCalls)
    (topt : Option (List (String × TempReading)))
    (h : c.temperatures = Except.ok topt) :
    dictGet (extractParameters c) keyHotTankMaxTemp = exVal c.hotTankMaxTemp := by
  simp only [extractParameters, h]
  rw [dictGet_tryInsert_ne _ keyColdWeatherShutdown _ keyHotTankMaxTemp (by decide),
      dictGet_tryInsert_ne _ keyWarmWeatherShutdown _ keyHotTankMaxTemp (by decide),
      dictGet_tryInsert_ne _ keyDeviceType _ keyHotTankMaxTemp (by decide),
      dictGet_tryInsert_ne _ keyFirmwareVersion _ keyHotTankMaxTemp (by decide),
      dictGet_tryInsert_ne _ keyColdTankMaxTemp _ keyHotTankMaxTemp (by decide),
      dictGet_tryInsert_ne _ keyColdTankMinTemp _ keyHotTankMaxTemp (by decide)]
  exact dictGet_tryInsert_self _ _ _ (by
    rw [dictGet_tryInsert_ne _ keyHotTankMinTemp _ keyHotTankMaxTemp (by decide),
        dictGet_tryInsert_ne _ keyHvacMode _ keyHotTankMaxTemp (by decide),
        dictGet_tryInsert_ne _ keyPermanentCoolDemand _ keyHotTankMaxTemp (by decide),
        dictGet_tryInsert_ne _ keyPermanentHeatDemand _ keyHotTankMaxTemp (by decide)]
    exact dictGet_tempBlock topt keyHotTankMaxTemp (by decide))

/-- Lookup of `keyColdTankMinTemp` in the extracted parameters depends only on its
own vendor call, once the temperatures fetch has succeeded. -/
theorem dictGet_extract_ctmin (c : DeviceCalls)
    (topt : Option (List (String × TempReading)))
    (h : c.temperatures = Except.ok topt) :
    dictGet (extractParameters c) keyColdTankMinTemp = exVal c.coldTankMinTemp := by
  simp only [extractParameters, h]
  rw [dictGet_tryInsert_ne _ keyColdWeatherShutdown _ keyColdTankMinTemp (by decide),
      dictGet_tryInsert_ne _ keyWarmWeatherShutdown _ keyColdTankMinTemp (by decide),
      dictGet_tryInsert_ne _ keyDeviceType _ keyColdTankMinTemp (by decide),
      dictGet_tryInsert_ne _ keyFirmwareVersion _ keyColdTankMinTemp (by decide),
      dictGet_tryInsert_ne _ keyColdTankMaxTemp _ keyColdTankMinTemp (by decide)]
  exact dictGet_tryInsert_self _ _ _ (by
    rw [dictGet_tryInsert_ne _ keyHotTankMaxTemp _ keyColdTankMinTemp (by decide),
        dictGet_tryInsert_ne _ keyHotTankMinTemp _ keyColdTankMinTemp (by decide),
        dictGet_tryInsert_ne _ keyHvacMode _ keyColdTankMinTemp (by decide),
        dictGet_tryInsert_ne _ keyPermanentCoolDemand _ keyColdTankMinTemp (by decide),
        dictGet_tryInsert_ne _ keyPermanentHeatDemand _ keyColdTankMinTemp (by decide)]
    exact dictGet_tempBlock topt keyColdTankMinTemp (by decide))

/-- Lookup of `keyColdTankMaxTemp` in the extracted parameters depends only on its
own vendor call, once the temperatures fetch has succeeded. -/
theorem dictGet_extract_ctmax (c : DeviceCalls)
    (topt : Option (List (String × TempReading)))
    (h : c.temperatures = Except.ok topt) :
    dictGet (extractParameters c) keyColdTankMaxTemp = exVal c.coldTankMaxTemp := by
  simp only [extractParameters, h]
  rw [dictGet_tryInsert_ne _ keyColdWeatherShutdown _ keyColdTankMaxTemp (by decide),
      dictGet_tryInsert_ne _ keyWarmWeatherShutdown _ keyColdTankMaxTemp (by decide),
      dictGet_tryInsert_ne _ keyDeviceType _ keyColdTankMaxTemp (by decide),
      dictGet_tryInsert_ne _ keyFirmwareVersion _ keyColdTankMaxTemp (by decide)]
  exact dictGet_tryInsert_self _ _ _ (by
    rw [dictGet_tryInsert_ne _ keyColdTankMinTemp _ keyColdTankMaxTemp (by decide),
        dictGet_tryInsert_ne _ keyHotTankMaxTemp _ keyColdTankMaxTemp (by decide),
        dictGet_tryInsert_ne _ keyHotTankMinTemp _ keyColdTankMaxTemp (by decide),
        dictGet_tryInsert_ne _ keyHvacMode _ keyColdTankMaxTemp (by decide),
        dictGet_tryInsert_ne _ keyPermanentCoolDemand _ keyColdTankMaxTemp (by decide),
        dictGet_tryInsert_ne _ keyPermanentHeatDemand _ keyColdTankMaxTemp (by decide)]
    exact dictGet_tempBlock topt keyColdTankMaxTemp (by decide))

/-- Lookup of `keyFirmwareVersion` in the extracted parameters depends only on its
own vendor call, once the temperatures fetch has succeeded. -/
theorem dictGet_extract_fw (c : DeviceCalls)
    (topt : Option (List (String × TempReading)))
    (h : c.temperatures = Except.ok topt) :
    dictGet (extractParameters c) keyFirmwareVersion = exVal c.firmwareVersion := by
  simp only [extractParameters, h]
  rw [dictGet_tryInsert_ne _ keyColdWeatherShutdown _ keyFirmwareVersion (by decide),
      dictGet_tryInsert_ne _ keyWarmWeatherShutdown _ keyFirmwareVersion (by decide),
      dictGet_tryInsert_ne _ keyDeviceType _ keyFirmwareVersion (by decide)]
  exact dictGet_tryInsert_self _ _ _ (by
    rw [dictGet_tryInsert_ne _ keyColdTankMaxTemp _ keyFirmwareVersion (by decide),
        dictGet_tryInsert_ne _ keyColdTankMinTemp _ keyFirmwareVersion (by decide),
        dictGet_tryInsert_ne _ keyHotTankMaxTemp _ keyFirmwareVersion (by decide),
        dictGet_tryInsert_ne _ keyHotTankMinTemp _ keyFirmwareVersion (by decide),
        dictGet_tryInsert_ne _ keyHvacMode _ keyFirmwareVersion (by decide),
        dictGet_tryInsert_ne _ keyPermanentCoolDemand _ keyFirmwareVersion (by decide),
        dictGet_tryInsert_ne _ keyPermanentHeatDemand _ keyFirmwareVersion (by decide)]
    exact dictGet_tempBlock topt keyFirmwareVersion (by decide))

/-- Lookup of `keyDeviceType` in the extracted parameters depends only on its
own vendor call, once the temperatures fetch has succeeded. -/
theorem dictGet_extract_dtype (c : DeviceCalls)
    (topt : Option (List (String × TempReading)))
    (h : c.temperatures = Except.ok topt) :
    dictGet (extractParameters c) keyDeviceType = exVal c.deviceType := by
  simp only [extractParameters, h]
  rw [dictGet_tryInsert_ne _ keyColdWeatherShutdown _ keyDeviceType (by decide),
      dictGet_tryInsert_ne _ keyWarmWeatherShutdown _ keyDeviceType (by decide)]
  exact dictGet_tryInsert_self _ _ _ (by
    rw [dictGet_tryInsert_ne _ keyFirmwareVersion _ keyDeviceType (by decide),
        dictGet_tryInsert_ne _ keyColdTankMaxTemp _ keyDeviceType (by decide),
        dictGet_tryInsert_ne _ keyColdTankMinTemp _ keyDeviceType (by decide),
        dictGet_tryInsert_ne _ keyHotTankMaxTemp _ keyDeviceType (by decide),
        dictGet_tryInsert_ne _ keyHotTankMinTemp _ keyDeviceType (by decide),
        dictGet_tryInsert_ne _ keyHvacMode _ keyDeviceType (by decide),
        dictGet_tryInsert_ne _ keyPermanentCoolDemand _ keyDeviceType (by decide),
        dictGet_tryInsert_ne _ keyPermanentHeatDemand _ keyDeviceType (by decide)]
    exact dictGet_tempBlock topt keyDeviceType (by decide))

/-- Lookup of `keyWarmWeatherShutdown` in the extracted parameters depends only on its
own vendor call, once the temperatures fetch has succeeded. -/
theorem dictGet_extract_wws (c : DeviceCalls)
    (topt : Option (List (String × TempReading)))
    (h : c.temperatures = Except.ok topt) :
    dictGet (extractParameters c) keyWarmWeatherShutdown = exVal c.warmWeatherShutdown := by
  simp only [extractParameters, h]
  rw [dictGet_tryInsert_ne _ keyColdWeatherShutdown _ keyWarmWeatherShutdown (by decide)]
  exact dictGet_tryInsert_self _ _ _ (by
    rw [dictGet_tryInsert_ne _ keyDeviceType _ keyWarmWeatherShutdown (by decide),
        dictGet_tryInsert_ne _ keyFirmwareVersion _ keyWarmWeatherShutdown (by decide),
        dictGet_tryInsert_ne _ keyColdTankMaxTemp _ keyWarmWeatherShutdown (by decide),
        dictGet_tryInsert_ne _ keyColdTankMinTemp _ keyWarmWeatherShutdown (by decide),
        dictGet_tryInsert_ne _ keyHotTankMaxTemp _ keyWarmWeatherShutdown (by decide),
        dictGet_tryInsert_ne _ keyHotTankMinTemp _ keyWarmWeatherShutdown (by decide),
        dictGet_tryInsert_ne _ keyHvacMode _ keyWarmWeatherShutdown (by decide),
        dictGet_tryInsert_ne _ keyPermanentCoolDemand _ keyWarmWeatherShutdown (by decide),
        dictGet_tryInsert_ne _ keyPermanentHeatDemand _ keyWarmWeatherShutdown (by decide)]
    exact dictGet_tempBlock topt keyWarmWeatherShutdown (by decide))

/-- Lookup of `keyColdWeatherShutdown` in the extracted parameters depends only on its
own vendor call, once the temperatures fetch has succeeded. -/
theorem dictGet_extract_cws (c : DeviceCalls)
    (topt : Option (List (String × TempReading)))
    (h : c.temperatures = Except.ok topt) :
    dictGet (extractParameters c) keyColdWeatherShutdown = exVal c.coldWeatherShutdown := by
  simp only [extractParameters, h]
  exact dictGet_tryInsert_self _ _ _ (by
    rw [dictGet_tryInsert_ne _ keyWarmWeatherShutdown _ keyColdWeatherShutdown (by decide),
        dictGet_tryInsert_ne _ keyDeviceType _ keyColdWeatherShutdown (by decide),
        dictGet_tryInsert_ne _ keyFirmwareVersion _ keyColdWeatherShutdown (by decide),
        dictGet_tryInsert_ne _ keyColdTankMaxTemp _ keyColdWeatherShutdown (by decide),
        dictGet_tryInsert_ne _ keyColdTankMinTemp _ keyColdWeatherShutdown (by decide),
        dictGet_tryInsert_ne _ keyHotTankMaxTemp _ keyColdWeatherShutdown (by decide),
        dictGet_tryInsert_ne _ keyHotTankMinTemp _ keyColdWeatherShutdown (by decide),
        dictGet_tryInsert_ne _ keyHvacMode _ keyColdWeatherShutdown (by decide),
        dictGet_tryInsert_ne _ keyPermanentCoolDemand _ keyColdWeatherShutdown (by decide),
        dictGet_tryInsert_ne _ keyPermanentHeatDemand _ keyColdWeatherShutdown (by decide)]
    exact dictGet_tempBlock topt keyColdWeatherShutdown (by decide))

/-- Concrete per-device call outcomes in which only the temperatures fetch
raises; every other getter succeeds. -/
def c1CexCalls : DeviceCalls :=
  { temperatures := Except.error (PyExc.other ("temps boom"))
    permanentHeatDemand := Except.ok (PValue.b true)
    permanentCoolDemand := Except.ok (PValue.b false)
    hvacModePriority := Except.ok 1
    hotTankMinTemp := Except.ok (PValue.n 100)
    hotTankMaxTemp := Except.ok (PValue.n 180)
    coldTankMinTemp := Except.ok (PValue.n 40)
    coldTankMaxTemp := Except.ok (PValue.n 60)
    firmwareVersion := Except.ok (PValue.s ("1.0"))
    deviceType := Except.ok (PValue.s ("THM"))
    warmWeatherShutdown := Except.ok (PValue.n 80)
    coldWeatherShutdown := Except.ok (PValue.n 20) }

/-- C1 counterexample: when the temperatures fetch raises but every other
per-parameter getter succeeds, extraction swallows the failure yet omits
EVERY key, not only the temperature keys — the successful
`permanent_heat_demand` read is absent from the result.  This refutes the
claim that a failure of any one per-parameter call (including the
temperatures fetch) is swallowed with only that key omitted while
extraction proceeds to every remaining key. -/
theorem c1_counterexample :
    c1CexCalls.permanentHeatDemand = Except.ok (PValue.b true)
    ∧ extractParameters c1CexCalls = []
    ∧ dictGet (extractParameters c1CexCalls) keyPermanentHeatDemand = none :=
  ⟨rfl, rfl, rfl⟩

/-- C1 (amended): the extractor never raises (it is a total function into
`Params`); every per-parameter vendor call OTHER than the temperatures
fetch is an independently-failing unit — once the temperatures fetch has
succeeded, each fixed parameter key is present with its call's value
exactly when that one call succeeds, independently of every other call —
but a failure of the temperatures fetch itself, though swallowed, aborts
extraction of all remaining keys and yields an empty parameters mapping. -/
theorem c1_parameter_isolation (c : DeviceCalls) :
    (∀ e, c.temperatures = Except.error e → extractParameters c = [])
    ∧ (∀ topt, c.temperatures = Except.ok topt →
        dictGet (extractParameters c) keyPermanentHeatDemand = exVal c.permanentHeatDemand
        ∧ dictGet (extractParameters c) keyPermanentCoolDemand = exVal c.permanentCoolDemand
        ∧ dictGet (extractParameters c) keyHvacMode
            = exVal (Except.map (fun m => PValue.s (modeMap m)) c.hvacModePriority)
        ∧ dictGet (extractParameters c) keyHotTankMinTemp = exVal c.hotTankMinTemp
        ∧ dictGet (extractParameters c) keyHotTankMaxTemp = exVal c.hotTankMaxTemp
        ∧ dictGet (extractParameters c) keyColdTankMinTemp = exVal c.coldTankMinTemp
        ∧ dictGet (extractParameters c) keyColdTankMaxTemp = exVal c.coldTankMaxTemp
        ∧ dictGet (extractParameters c) keyFirmwareVersion = exVal c.firmwareVersion
        ∧ dictGet (extractParameters c) keyDeviceType = exVal c.deviceType
        ∧ dictGet (extractParameters c) keyWarmWeatherShutdown = exVal c.warmWeatherShutdown
        ∧ dictGet (extractParameters c) keyColdWeatherShutdown = exVal c.coldWeatherShutdown) := by
  constructor
  · intro e he
    simp only [extractParameters, he]
  · intro topt h
    exact ⟨dictGet_extract_phd c topt h, dictGet_extract_pcd c topt h,
      dictGet_extract_hvac c topt h, dictGet_extract_htmin c topt h,
      dictGet_extract_htmax c topt h, dictGet_extract_ctmin c topt h,
      dictGet_extract_ctmax c topt h, dictGet_extract_fw c topt h,
      dictGet_extract_dtype c topt h, dictGet_extract_wws c topt h,
      dictGet_extract_cws c topt h⟩

/-- Concrete per-device call outcomes in which the temperatures fetch
succeeds and exactly one guarded getter (`hot_tank_min_temp`) raises. -/
def c1WitCalls : DeviceCalls :=
  { temperatures := Except.ok (some [(("Hot Tank"), ⟨some 120, some 125⟩)])
    permanentHeatDemand := Except.ok (PValue.b true)
    permanentCoolDemand := Except.ok (PValue.b false)
    hvacModePriority := Except.ok 0
    hotTankMinTemp := Except.error (PyExc.other ("unsupported"))
    hotTankMaxTemp := Except.ok (PValue.n 180)
    coldTankMinTemp := Except.ok (PValue.n 40)
    coldTankMaxTemp := Except.ok (PValue.n 60)
    firmwareVersion := Except.ok (PValue.s ("1.0"))
    deviceType := Except.ok (PValue.s ("THM"))
    warmWeatherShutdown := Except.ok (PValue.n 80)
    coldWeatherShutdown := Except.ok (PValue.n 20) }

/-- Witness for the amended C1 theorem at concrete inputs: the failing
`hot_tank_min_temp` key is omitted while the succeeding
`permanent_heat_demand` key keeps its value, and a temperatures-fetch
failure empties the mapping. -/
theorem c1_parameter_isolation_witness :
    dictGet (extractParameters c1WitCalls) keyPermanentHeatDemand = some (PValue.b true)
    ∧ dictGet (extractParameters c1WitCalls) keyHotTankMinTemp = none
    ∧ extractParameters c1CexCalls = [] :=
  ⟨((c1_parameter_isolation c1WitCalls).2 _ rfl).1,
   ((c1_parameter_isolation c1WitCalls).2 _ rfl).2.2.2.1,
   (c1_parameter_isolation c1CexCalls).1 (PyExc.other ("temps boom")) rfl⟩

/-- A building as returned by `get_buildings`; only its `id` field is read
by this integration (`building.get("id")`, Python `None` when absent). -/
structure Building where
  id : Option String
  deriving DecidableEq

/-- A device dict as returned by `get_devices`, restricted to the fields
this integration reads. -/
structure Device where
  syncCode : Option String
  id : Option String
  name : Option String
  type : Option String
  deriving DecidableEq

/-- Python truthiness of an optional string (`None` and `""` are falsy). -/
def strOptTruthy : Option String → Bool
  | none => false
  | some s => s != ""

/-- Mirrors `device.get("syncCode") or device.get("id")` (coordinator.py
line 74): Python `or` returns its first operand when that is truthy. -/
def deviceKey (d : Device) : Option String :=
  if strOptTruthy d.syncCode then d.syncCode else d.id

/-- Snapshot device-map key: the vendor sync code or id (possibly `None`). -/
abbrev DKey := Option String

/-- A device as stored in the snapshot: the vendor dict plus the extracted
`parameters` mapping (`device["parameters"] = parameters`, line 158). -/
structure DeviceOut where
  info : Device
  parameters : Params
  deriving DecidableEq

abbrev DevMap := List (DKey × DeviceOut)

/-- The dict returned by one successful refresh (coordinator.py lines
168-172); it always carries all three fields. -/
structure Snapshot where
  profile : Option String
  buildings : List Building
  devices : DevMap
  deriving DecidableEq

/-- Errors `_async_update_data` can raise: `ConfigEntryAuthFailed`
(reauthentication required) or `UpdateFailed` (recoverable). -/
inductive CoordError where
  | authFailed (msg : String)
  | updateFailed (msg : String)
  deriving DecidableEq

/-- Mirrors the outer `except` clauses (coordinator.py lines 174-179): a
`ConfigEntryAuthFailed` is re-raised unchanged; any other exception is
wrapped in `UpdateFailed(f"Error communicating with API: {exc}")`. -/
def wrapOuter (e : PyExc) : CoordError :=
  match e with
  | .configEntryAuthFailed m => .authFailed m
  | .other m => .updateFailed ("Error communicating with API: " ++ m)

/-- Oracle for the vendor-client calls one refresh makes.  `getProfile`
returning `none` models any falsy profile value; `getBuildings` returning
`none` models a falsy building list. -/
structure RefreshCalls where
  login : Except PyExc Unit
  getProfile : Except PyExc (Option String)
  getBuildings : Except PyExc (Option (List Building))
  getDevices : Option String → Except PyExc (Option (List Device))
  deviceCalls : Option String → DKey → DeviceCalls

/-- Mirrors coordinator.py lines 73-160: process one device of a building —
extract its parameters, attach them, store the device under its key. -/
def insDevice (c : RefreshCalls) (bid : Option String) (acc : DevMap) (d : Device) : DevMap :=
  dictSet acc (deviceKey d) ⟨d, extractParameters (c.deviceCalls bid (deviceKey d))⟩

/-- Mirrors coordinator.py lines 66-164: one iteration of the building
loop.  A raising `get_devices` call (or a falsy result) contributes
nothing and the loop continues. -/
def processBuilding (c : RefreshCalls) (acc : DevMap) (b : Building) : DevMap :=
  match c.getDevices b.id with
  | .error _ => acc
  | .ok none => acc
  | .ok (some ds) => ds.foldl (insDevice c b.id) acc

/-- Shallow embedding of `_async_update_data` (coordinator.py lines
36-179): login, profile fetch (a falsy profile raises
`ConfigEntryAuthFailed`, caught by the outer clause and re-raised),
building fetch (a falsy result is replaced by the empty list), then the
per-building device fan-out. -/
def updateData (c : RefreshCalls) : Except CoordError Snapshot :=
  match c.login with
  | .error e => .error (wrapOuter e)
  | .ok _ =>
    match c.getProfile with
    | .error e => .error (wrapOuter e)
    | .ok profile =>
      match profile with
      | none => .error (.authFailed ("Failed to get user profile"))
      | some p =>
        match c.getBuildings with
        | .error e => .error (wrapOuter e)
        | .ok bopt =>
          let buildings := match bopt with
            | none => []
            | some l => l
          let devices := buildings.foldl (processBuilding c) []
          .ok ⟨some p, buildings, devices⟩

/-- Per-device oracle whose calls all fail (used in concrete refreshes
where parameter extraction is irrelevant). -/
def defaultDeviceCalls : DeviceCalls :=
  { temperatures := Except.error (PyExc.other ("n/a"))
    permanentHeatDemand := Except.error (PyExc.other ("n/a"))
    permanentCoolDemand := Except.error (PyExc.other ("n/a"))
    hvacModePriority := Except.error (PyExc.other ("n/a"))
    hotTankMinTemp := Except.error (PyExc.other ("n/a"))
    hotTankMaxTemp := Except.error (PyExc.other ("n/a"))
    coldTankMinTemp := Except.error (PyExc.other ("n/a"))
    coldTankMaxTemp := Except.error (PyExc.other ("n/a"))
    firmwareVersion := Except.error (PyExc.other ("n/a"))
    deviceType := Except.error (PyExc.other ("n/a"))
    warmWeatherShutdown := Except.error (PyExc.other ("n/a"))
    coldWeatherShutdown := Except.error (PyExc.other ("n/a")) }

/-- Refresh oracle whose login raises a plain (non-auth) exception. -/
def c2CexCalls : RefreshCalls :=
  { login := Except.error (PyExc.other ("connection reset"))
    getProfile := Except.ok (some ("profile"))
    getBuildings := Except.ok (some [])
    getDevices := fun _ => Except.ok none
    deviceCalls := fun _ _ => defaultDeviceCalls }

/-- C2 counterexample: a login failure that is a plain exception is wrapped
in `UpdateFailed`, not surfaced as `ConfigEntryAuthFailed` — refuting the
claim that every failure raised by the login call yields AuthError. -/
theorem c2_counterexample :
    c2CexCalls.login = Except.error (PyExc.other ("connection reset"))
    ∧ updateData c2CexCalls
        = Except.error (CoordError.updateFailed ("Error communicating with API: connection reset"))
    ∧ ¬∃ m, updateData c2CexCalls = Except.error (CoordError.authFailed m) := by
  refine ⟨rfl, rfl, ?_⟩
  rintro ⟨m, hm⟩
  have h0 : updateData c2CexCalls
      = Except.error (CoordError.updateFailed ("Error communicating with API: connection reset")) := rfl
  rw [h0] at hm
  simp at hm

/-- C2 (amended): a refresh fails with AuthError (`ConfigEntryAuthFailed`)
exactly when one of the login/profile/buildings calls raises
`ConfigEntryAuthFailed` itself or the fetched profile is falsy, and fails
with UpdateError (`UpdateFailed`) exactly when one of those calls raises
any other exception; in particular a login failure that is not
`ConfigEntryAuthFailed` yields UpdateError, not AuthError. -/
theorem c2_error_classification (c : RefreshCalls) :
    ((∃ m, updateData c = Except.error (CoordError.authFailed m)) ↔
      ((∃ m, c.login = Except.error (PyExc.configEntryAuthFailed m))
        ∨ (c.login = Except.ok () ∧
            ∃ m, c.getProfile = Except.error (PyExc.configEntryAuthFailed m))
        ∨ (c.login = Except.ok () ∧ c.getProfile = Except.ok none)
        ∨ (c.login = Except.ok () ∧ (∃ p, c.getProfile = Except.ok (some p))
            ∧ ∃ m, c.getBuildings = Except.error (PyExc.configEntryAuthFailed m))))
    ∧ ((∃ m, updateData c = Except.error (CoordError.updateFailed m)) ↔
      ((∃ m, c.login = Except.error (PyExc.other m))
        ∨ (c.login = Except.ok () ∧ ∃ m, c.getProfile = Except.error (PyExc.other m))
        ∨ (c.login = Except.ok () ∧ (∃ p, c.getProfile = Except.ok (some p))
            ∧ ∃ m, c.getBuildings = Except.error (PyExc.other m)))) := by
  rcases c with ⟨lg, pr, bl, dv, dc⟩
  cases lg with
  | error e => cases e <;> simp [updateData, wrapOuter]
  | ok u =>
    cases u
    cases pr with
    | error e => cases e <;> simp [updateData, wrapOuter]
    | ok popt =>
      cases popt with
      | none => simp [updateData]
      | some p =>
        cases bl with
        | error e => cases e <;> simp [updateData, wrapOuter]
        | ok bopt => simp [updateData]

theorem dmem_insDevice_mono (c : RefreshCalls) (bid : Option String) (acc : DevMap)
    (d : Device) (k : DKey) (h : dmem acc k = true) :
    dmem (insDevice c bid acc d) k = true :=
  dmem_dictSet_mono acc (deviceKey d) k _ h

theorem dmem_insDevice_self (c : RefreshCalls) (bid : Option String) (acc : DevMap)
    (d : Device) : dmem (insDevice c bid acc d) (deviceKey d) = true :=
  dmem_dictSet_self acc (deviceKey d) _

theorem dmem_devFold_mono (c : RefreshCalls) (bid : Option String) (ds : List Device)
    (acc : DevMap) (k : DKey) (h : dmem acc k = true) :
    dmem (ds.foldl (insDevice c bid) acc) k = true := by
  induction ds generalizing acc with
  | nil => simpa using h
  | cons d t ih =>
    rw [List.foldl_cons]
    exact ih _ (dmem_insDevice_mono c bid acc d k h)

theorem dmem_devFold_mem (c : RefreshCalls) (bid : Option String) (ds : List Device)
    (acc : DevMap) (d : Device) :
    d ∈ ds → dmem (ds.foldl (insDevice c bid) acc) (deviceKey d) = true := by
  induction ds generalizing acc with
  | nil => intro hd; cases hd
  | cons x t ih =>
    intro hd
    rw [List.foldl_cons]
    rcases List.mem_cons.mp hd with h | h
    · subst h
      exact dmem_devFold_mono c bid t _ (deviceKey d) (dmem_insDevice_self c bid acc d)
    · exact ih _ h

theorem dmem_processBuilding_mono (c : RefreshCalls) (acc : DevMap) (b : Building)
    (k : DKey) (h : dmem acc k = true) : dmem (processBuilding c acc b) k = true := by
  unfold processBuilding
  cases c.getDevices b.id with
  | error e => exact h
  | ok o =>
    cases o with
    | none => exact h
    | some ds => exact dmem_devFold_mono c b.id ds acc k h

theorem dmem_bFold_mono (c : RefreshCalls) (bs : List Building) (acc : DevMap) (k : DKey)
    (h : dmem acc k = true) : dmem (bs.foldl (processBuilding c) acc) k = true := by
  induction bs generalizing acc with
  | nil => simpa using h
  | cons b t ih =>
    rw [List.foldl_cons]
    exact ih _ (dmem_processBuilding_mono c acc b k h)

theorem dmem_bFold_mem (c : RefreshCalls) (bs : List Building) (acc : DevMap)
    (b : Building) (ds : List Device) (d : Device) :
    b ∈ bs → c.getDevices b.id = Except.ok (some ds) → d ∈ ds →
    dmem (bs.foldl (processBuilding c) acc) (deviceKey d) = true := by
  induction bs generalizing acc with
  | nil => intro hb; cases hb
  | cons x t ih =>
    intro hb hg hd
    rw [List.foldl_cons]
    rcases List.mem_cons.mp hb with h | h
    · subst h
      have hstep : dmem (processBuilding c acc b) (deviceKey d) = true := by
        simp only [processBuilding, hg]
        exact dmem_devFold_mem c b.id ds acc d hd
      exact dmem_bFold_mono c t _ (deviceKey d) hstep
    · exact ih _ h hg hd

/-- Oracle with the `get_devices` outcome for one building id replaced. -/
def setGetDevices (c : RefreshCalls) (bid : Option String)
    (r : Except PyExc (Option (List Device))) : RefreshCalls :=
  { c with getDevices := fun x => if x = bid then r else c.getDevices x }

theorem processBuilding_setGetDevices (c : RefreshCalls) (bid : Option String) (e : PyExc)
    (hd : c.getDevices bid = Except.error e) (acc : DevMap) (b : Building) :
    processBuilding (setGetDevices c bid (Except.ok none)) acc b
      = processBuilding c acc b := by
  have h4 : insDevice (setGetDevices c bid (Except.ok none)) = insDevice c := rfl
  by_cases hb : b.id = bid
  · have h1 : (setGetDevices c bid (Except.ok none)).getDevices b.id = Except.ok none := by
      simp [setGetDevices, hb]
    have h2 : c.getDevices b.id = Except.error e := by rw [hb]; exact hd
    simp only [processBuilding, h1, h2]
  · have h1 : (setGetDevices c bid (Except.ok none)).getDevices b.id = c.getDevices b.id := by
      simp [setGetDevices, hb]
    simp only [processBuilding, h1, h4]

theorem bFold_setGetDevices (c : RefreshCalls) (bid : Option String) (e : PyExc)
    (hd : c.getDevices bid = Except.error e) (bs : List Building) (acc : DevMap) :
    bs.foldl (processBuilding (setGetDevices c bid (Except.ok none))) acc
      = bs.foldl (processBuilding c) acc := by
  induction bs generalizing acc with
  | nil => rfl
  | cons b t ih =>
    rw [List.foldl_cons, List.foldl_cons, processBuilding_setGetDevices c bid e hd acc b]
    exact ih _

/-- Boolean success test on a refresh outcome. -/
def exIsOk (r : Except CoordError Snapshot) : Bool :=
  match r with
  | .ok _ => true
  | .error _ => false

/-- Devices mapping of a refresh outcome (empty when the refresh failed). -/
def snapDevices (r : Except CoordError Snapshot) : DevMap :=
  match r with
  | .ok s => s.devices
  | .error _ => []

/-- C3: when fetching one building's devices raises, the refresh still
succeeds, every device of every building whose fetch succeeded appears in
the snapshot's devices mapping, and the refresh result is exactly the one
obtained if the failing building had reported no devices — i.e. the
failing building contributes zero devices and the loop continues. -/
theorem c3_building_failure_isolated (c : RefreshCalls) (p0 : String)
    (bl : List Building) (bid : Option String) (e : PyExc)
    (hl : c.login = Except.ok ())
    (hp : c.getProfile = Except.ok (some p0))
    (hb : c.getBuildings = Except.ok (some bl))
    (hd : c.getDevices bid = Except.error e) :
    exIsOk (updateData c) = true
    ∧ (∀ b, b ∈ bl → ∀ ds, c.getDevices b.id = Except.ok (some ds) →
        ∀ d, d ∈ ds → dmem (snapDevices (updateData c)) (deviceKey d) = true)
    ∧ updateData (setGetDevices c bid (Except.ok none)) = updateData c := by
  have hu : updateData c = Except.ok ⟨some p0, bl, bl.foldl (processBuilding c) []⟩ := by
    simp only [updateData, hl, hp, hb]
  have e1 : (setGetDevices c bid (Except.ok none)).login = c.login := rfl
  have e2 : (setGetDevices c bid (Except.ok none)).getProfile = c.getProfile := rfl
  have e3 : (setGetDevices c bid (Except.ok none)).getBuildings = c.getBuildings := rfl
  have hu' : updateData (setGetDevices c bid (Except.ok none))
      = Except.ok ⟨some p0, bl,
          bl.foldl (processBuilding (setGetDevices c bid (Except.ok none))) []⟩ := by
    simp only [updateData, e1, e2, e3, hl, hp, hb]
  refine ⟨by rw [hu]; rfl, ?_, ?_⟩
  · intro b hbmem ds hds d hdmem
    rw [hu]
    exact dmem_bFold_mem c bl [] b ds d hbmem hds hdmem
  · rw [hu, hu', bFold_setGetDevices c bid e hd bl []]

/-- Refresh oracle with two buildings where the first building's device
fetch raises and the second reports one device. -/
def c3WitCalls : RefreshCalls :=
  { login := Except.ok ()
    getProfile := Except.ok (some ("profile"))
    getBuildings := Except.ok (some [⟨some ("b1")⟩, ⟨some ("b2")⟩])
    getDevices := fun x =>
      if x = some ("b1") then Except.error (PyExc.other ("http 500"))
      else if x = some ("b2") then
        Except.ok (some [⟨some ("d2"), none, some ("Tank"), some ("thermostat")⟩])
      else Except.ok none
    deviceCalls := fun _ _ => defaultDeviceCalls }

/-- Witness for C3 at a concrete refresh: building b1's fetch raises, yet
the refresh succeeds and building b2's device d2 is in the snapshot. -/
theorem c3_building_failure_isolated_witness :
    exIsOk (updateData c3WitCalls) = true
    ∧ dmem (snapDevices (updateData c3WitCalls)) (some ("d2")) = true := by
  have h := c3_building_failure_isolated c3WitCalls ("profile")
    [⟨some ("b1")⟩, ⟨some ("b2")⟩] (some ("b1")) (PyExc.other ("http 500"))
    rfl rfl rfl rfl
  refine ⟨h.1, ?_⟩
  exact h.2.1 ⟨some ("b2")⟩ (by decide)
    [⟨some ("d2"), none, some ("Tank"), some ("thermostat")⟩] rfl
    ⟨some ("d2"), none, some ("Tank"), some ("thermostat")⟩ (by decide)

/-- Availability of the switch adapter (switch.py lines 169-177):
`last_update_success and data is not None and "devices" in data and
device_id in data["devices"]`.  A `Snapshot` always carries its `devices`
field, so the `"devices" in data` conjunct holds whenever data exists. -/
def switchAvailable (lastUpdateSuccess : Bool) (data : Option Snapshot) (did : DKey) : Bool :=
  lastUpdateSuccess && (match data with
    | none => false
    | some s => dmem s.devices did)

/-- Availability of the binary-sensor adapter (binary_sensor.py 150-158),
textually the same rule as the switch adapter. -/
def binarySensorAvailable (lastUpdateSuccess : Bool) (data : Option Snapshot) (did : DKey) : Bool :=
  lastUpdateSuccess && (match data with
    | none => false
    | some s => dmem s.devices did)

/-- Availability of the sensor adapter (sensor.py 191-199). -/
def sensorAvailable (lastUpdateSuccess : Bool) (data : Option Snapshot) (did : DKey) : Bool :=
  lastUpdateSuccess && (match data with
    | none => false
    | some s => dmem s.devices did)

/-- Availability of the climate adapter (climate.py 256-264). -/
def climateAvailable (lastUpdateSuccess : Bool) (data : Option Snapshot) (did : DKey) : Bool :=
  lastUpdateSuccess && (match data with
    | none => false
    | some s => dmem s.devices did)

/-- Mirrors `SensorLinxSwitch.is_on` (switch.py lines 101-118): missing
data or device yields unknown (`none`); an absent key or stored `None`
reads as off; otherwise `bool(value)`.  A device dict present in the
snapshot is nonempty (it always carries `parameters`), hence truthy. -/
def switchIsOn (data : Option Snapshot) (did : DKey) (key : String) : Option Bool :=
  match data with
  | none => none
  | some s =>
    match dictGet s.devices did with
    | none => none
    | some dev =>
      let value := (dictGet dev.parameters key).getD PValue.null
      if value = PValue.null then some false
      else some value.truthy

/-- Python `value.lower() in ("true", "on", "1", "yes", "active")`. -/
def strTruthyWords : List String :=
  [("true"), ("on"), ("1"), ("yes"), ("active")]

/-- Mirrors `SensorLinxBinarySensor.is_on` (binary_sensor.py lines
116-148).  For the two weather-shutdown keys the code runs
`value != 32 if isinstance(value, (int, float)) else False`; a Python bool
is an instance of `int` with value 1 or 0, which the `PValue.b` arm
reflects. -/
def binarySensorIsOn (data : Option Snapshot) (did : DKey) (key : String) : Option Bool :=
  match data with
  | none => none
  | some s =>
    match dictGet s.devices did with
    | none => none
    | some dev =>
      let value := (dictGet dev.parameters key).getD PValue.null
      if value = PValue.null then none
      else if key = keyPermanentHeatDemand ∨ key = keyPermanentCoolDemand then
        some value.truthy
      else if key = keyWarmWeatherShutdown ∨ key = keyColdWeatherShutdown then
        some (match value with
          | PValue.n x => x != 32
          | PValue.b bv => (if bv then (1 : Int) else 0) != 32
          | _ => false)
      else
        match value with
        | PValue.b bv => some bv
        | PValue.n x => some (decide (0 < x))
        | PValue.s str => some (strTruthyWords.contains (str.toLower))
        | PValue.null => none

/-- Keys of BINARY_SENSOR_DESCRIPTIONS (binary_sensor.py lines 22-43). -/
def binarySensorKeys : List String :=
  [keyPermanentHeatDemand, keyPermanentCoolDemand,
   keyWarmWeatherShutdown, keyColdWeatherShutdown]

/-- Keys of SENSOR_DESCRIPTIONS (sensor.py lines 30-105). -/
def sensorKeys : List String :=
  [keyTemperatureHotTank, keyTemperatureColdTank, keyTemperatureOutdoor,
   keyTargetTemperatureHotTank, keyTargetTemperatureColdTank,
   keyHotTankMinTemp, keyHotTankMaxTemp, keyColdTankMinTemp, keyColdTankMaxTemp,
   keyFirmwareVersion, keyDeviceType]

/-- Keys of SWITCH_DESCRIPTIONS (switch.py lines 18-29). -/
def switchKeys : List String :=
  [keyPermanentHeatDemand, keyPermanentCoolDemand]

/-- Entities created by binary_sensor.async_setup_entry (lines 46-85),
identified by (device id, description key): a description is instantiated
only `if description.key in device_parameters`. -/
def binarySensorSetup (data : Option Snapshot) : List (DKey × String) :=
  match data with
  | none => []
  | some s =>
    s.devices.flatMap (fun p =>
      (binarySensorKeys.filter (fun k => dmem p.2.parameters k)).map (fun k => (p.1, k)))

/-- Entities created by sensor.async_setup_entry (lines 108-147), with the
same key-presence filter as the binary sensors. -/
def sensorSetup (data : Option Snapshot) : List (DKey × String) :=
  match data with
  | none => []
  | some s =>
    s.devices.flatMap (fun p =>
      (sensorKeys.filter (fun k => dmem p.2.parameters k)).map (fun k => (p.1, k)))

/-- Entities created by switch.async_setup_entry (lines 32-69): both
demand switches are always created for every device, with no key check. -/
def switchSetup (data : Option Snapshot) : List (DKey × String) :=
  match data with
  | none => []
  | some s =>
    s.devices.flatMap (fun p => switchKeys.map (fun k => (p.1, k)))

/-- C5: all four entity adapters use the same availability predicate, and
it holds exactly when the last refresh succeeded, a snapshot exists (the
snapshot always carries its devices mapping) and the entity's device id is
a key of the snapshot's devices mapping. -/
theorem c5_available_uniform (ls : Bool) (data : Option Snapshot) (did : DKey) :
    switchAvailable ls data did = binarySensorAvailable ls data did
    ∧ switchAvailable ls data did = sensorAvailable ls data did
    ∧ switchAvailable ls data did = climateAvailable ls data did
    ∧ (switchAvailable ls data did = true ↔
        ls = true ∧ ∃ s, data = some s ∧ dmem s.devices did = true) := by
  refine ⟨rfl, rfl, rfl, ?_⟩
  cases data with
  | none => simp [switchAvailable]
  | some s => simp [switchAvailable]

theorem assoc_key_unique {K V : Type} [DecidableEq K] (l : List (K × V)) (a : K) (b c : V) :
    (l.map Prod.fst).Nodup → (a, b) ∈ l → (a, c) ∈ l → b = c := by
  induction l with
  | nil => intro _ hb; cases hb
  | cons x t ih =>
    intro hnd hb hc
    have hnd2 : x.1 ∉ t.map Prod.fst ∧ (t.map Prod.fst).Nodup := by
      rw [List.map_cons] at hnd
      exact List.nodup_cons.mp hnd
    rcases List.mem_cons.mp hb with h1 | h1 <;> rcases List.mem_cons.mp hc with h2 | h2
    · exact congrArg Prod.snd (h1.trans h2.symm)
    · have hfst : a = x.1 := by rw [← h1]
      exact absurd (List.mem_map.mpr ⟨(a, c), h2, hfst⟩) hnd2.1
    · have hfst : a = x.1 := by rw [← h2]
      exact absurd (List.mem_map.mpr ⟨(a, b), h1, hfst⟩) hnd2.1
    · exact ih hnd2.2 h1 h2

theorem setup_filter_mem_iff (keys : List String) (s : Snapshot)
    (hnd : (s.devices.map Prod.fst).Nodup) (did : DKey) (dev : DeviceOut)
    (hmem : (did, dev) ∈ s.devices) (k : String) (hk : k ∈ keys) :
    ((did, k) ∈ s.devices.flatMap (fun p =>
        (keys.filter (fun j => dmem p.2.parameters j)).map (fun j => (p.1, j)))
      ↔ dmem dev.parameters k = true) := by
  constructor
  · intro h
    rcases List.mem_flatMap.mp h with ⟨p, hp, hmap⟩
    rcases List.mem_map.mp hmap with ⟨j, hj, he⟩
    rcases p with ⟨a, b⟩
    have h1 : a = did := congrArg Prod.fst he
    have h2 : j = k := congrArg Prod.snd he
    have hpmem : (did, b) ∈ s.devices := h1 ▸ hp
    have hbd : b = dev := assoc_key_unique s.devices did b dev hnd hpmem hmem
    have hj2 := (List.mem_filter.mp hj).2
    rw [← hbd, ← h2]
    simpa using hj2
  · intro h
    exact List.mem_flatMap.mpr
      ⟨(did, dev), hmem, List.mem_map.mpr ⟨k, List.mem_filter.mpr ⟨hk, by simpa using h⟩, rfl⟩⟩

/-- C6: over a successful snapshot, a binary-sensor or sensor entity for a
given description key is instantiated at setup iff that key is present in
the device's parameters mapping, while both demand-switch entities are
instantiated for every device regardless of key presence.  (The devices
mapping of a real snapshot is a Python dict, hence has pairwise-distinct
keys.) -/
theorem c6_setup_key_presence (s : Snapshot)
    (hnd : (s.devices.map Prod.fst).Nodup)
    (did : DKey) (dev : DeviceOut) (hmem : (did, dev) ∈ s.devices) (k : String) :
    (k ∈ binarySensorKeys →
      ((did, k) ∈ binarySensorSetup (some s) ↔ dmem dev.parameters k = true))
    ∧ (k ∈ sensorKeys →
      ((did, k) ∈ sensorSetup (some s) ↔ dmem dev.parameters k = true))
    ∧ (k ∈ switchKeys → (did, k) ∈ switchSetup (some s)) := by
  refine ⟨fun hk => ?_, fun hk => ?_, fun hk => ?_⟩
  · simpa [binarySensorSetup] using
      setup_filter_mem_iff binarySensorKeys s hnd did dev hmem k hk
  · simpa [sensorSetup] using
      setup_filter_mem_iff sensorKeys s hnd did dev hmem k hk
  · exact List.mem_flatMap.mpr ⟨(did, dev), hmem, List.mem_map.mpr ⟨k, hk, rfl⟩⟩

/-- Device stored in the concrete C6/C7 snapshot: it has the
`permanent_heat_demand` parameter and nothing else. -/
def c6Dev : DeviceOut :=
  ⟨⟨some ("d1"), none, some ("Tank"), some ("thermostat")⟩,
   [(keyPermanentHeatDemand, PValue.b true)]⟩

/-- Concrete one-building one-device snapshot. -/
def c6Snap : Snapshot :=
  ⟨some ("profile"), [⟨some ("b1")⟩], [(some ("d1"), c6Dev)]⟩

/-- Witness for C6 at a concrete snapshot: the heat-demand binary sensor
is instantiated (key present), the cool-demand binary sensor is not (key
absent), and the cool-demand switch is instantiated anyway. -/
theorem c6_setup_key_presence_witness :
    (some ("d1"), keyPermanentHeatDemand) ∈ binarySensorSetup (some c6Snap)
    ∧ ((some ("d1"), keyPermanentCoolDemand) ∉ binarySensorSetup (some c6Snap))
    ∧ (some ("d1"), keyPermanentCoolDemand) ∈ switchSetup (some c6Snap) := by
  have h1 := c6_setup_key_presence c6Snap (by decide) (some ("d1")) c6Dev (by decide)
    keyPermanentHeatDemand
  have h2 := c6_setup_key_presence c6Snap (by decide) (some ("d1")) c6Dev (by decide)
    keyPermanentCoolDemand
  refine ⟨(h1.1 (by decide)).mpr (by decide), fun hm => ?_, h2.2.2 (by decide)⟩
  have := (h2.1 (by decide)).mp hm
  exact absurd this (by decide)

/-- C7: for a switch whose device is present in the snapshot, a boolean
parameter key that is absent (or stored as `None`) reads as off — never
unknown — while a present non-`None` value reads as its Python
truthiness. -/
theorem c7_switch_absent_reads_off (s : Snapshot) (did : DKey) (dev : DeviceOut) (k : String)
    (hdev : dictGet s.devices did = some dev) :
    ((dictGet dev.parameters k = none ∨ dictGet dev.parameters k = some PValue.null) →
      switchIsOn (some s) did k = some false)
    ∧ (∀ v, dictGet dev.parameters k = some v → v ≠ PValue.null →
      switchIsOn (some s) did k = some v.truthy) := by
  constructor
  · intro h
    rcases h with h | h <;> simp [switchIsOn, hdev, h]
  · intro v hv hvn
    simp [switchIsOn, hdev, hv, hvn]

/-- Witness for C7 at a concrete snapshot: the absent
`permanent_cool_demand` key reads as off, and the present
`permanent_heat_demand` value `True` reads as on. -/
theorem c7_switch_absent_reads_off_witness :
    switchIsOn (some c6Snap) (some ("d1")) keyPermanentCoolDemand = some false
    ∧ switchIsOn (some c6Snap) (some ("d1")) keyPermanentHeatDemand = some true :=
  ⟨(c7_switch_absent_reads_off c6Snap (some ("d1")) c6Dev keyPermanentCoolDemand rfl).1
      (Or.inl rfl),
   (c7_switch_absent_reads_off c6Snap (some ("d1")) c6Dev keyPermanentHeatDemand rfl).2
      (PValue.b true) rfl (by decide)⟩

/-- C8: for a warm/cold-weather-shutdown binary sensor whose device is in
the snapshot and whose key holds a numeric value, `is_on` is false exactly
at the disabled sentinel 32 and true at every other numeric value. -/
theorem c8_shutdown_sentinel (s : Snapshot) (did : DKey) (dev : DeviceOut) (k : String)
    (x : Int) (hdev : dictGet s.devices did = some dev)
    (hk : k = keyWarmWeatherShutdown ∨ k = keyColdWeatherShutdown)
    (hx : dictGet dev.parameters k = some (PValue.n x)) :
    binarySensorIsOn (some s) did k = some (x != 32)
    ∧ (x = 32 → binarySensorIsOn (some s) did k = some false)
    ∧ (x ≠ 32 → binarySensorIsOn (some s) did k = some true) := by
  have hmain : binarySensorIsOn (some s) did k = some (x != 32) := by
    rcases hk with hk | hk <;> subst hk
    · have g1 : ¬(keyWarmWeatherShutdown = keyPermanentHeatDemand
          ∨ keyWarmWeatherShutdown = keyPermanentCoolDemand) := by decide
      simp [binarySensorIsOn, hdev, hx, g1]
    · have g1 : ¬(keyColdWeatherShutdown = keyPermanentHeatDemand
          ∨ keyColdWeatherShutdown = keyPermanentCoolDemand) := by decide
      have g2 : keyColdWeatherShutdown = keyWarmWeatherShutdown
          ∨ keyColdWeatherShutdown = keyColdWeatherShutdown := Or.inr rfl
      simp [binarySensorIsOn, hdev, hx, g1, g2]
  refine ⟨hmain, fun he => ?_, fun hne => ?_⟩
  · subst he
    rw [hmain]
    decide
  · rw [hmain]
    simp [bne_iff_ne]
    exact hne

/-- C9: during parameter extraction the vendor's integer HVAC-mode-priority
code is translated by 0→heat, 1→cool, 2→auto with every unrecognized code
also mapping to auto, and the translated string is stored under the
parameter key `hvac_mode`. -/
theorem c9_hvac_mode_translation :
    (∀ (c : DeviceCalls) (topt : Option (List (String × TempReading))) (m : Int),
      c.temperatures = Except.ok topt → c.hvacModePriority = Except.ok m →
      dictGet (extractParameters c) keyHvacMode = some (PValue.s (modeMap m)))
    ∧ modeMap 0 = "heat" ∧ modeMap 1 = "cool" ∧ modeMap 2 = "auto"
    ∧ (∀ m : Int, m ≠ 0 → m ≠ 1 → m ≠ 2 → modeMap m = "auto") := by
  refine ⟨?_, rfl, rfl, rfl, ?_⟩
  · intro c topt m ht hm
    have h := dictGet_extract_hvac c topt ht
    rw [h, hm]
    rfl
  · intro m h0 h1 h2
    simp [modeMap, h0, h1]

/-- Witness for C9 at a concrete input: a vendor code of 0 is stored as
the string heat under `hvac_mode`. -/
theorem c9_hvac_mode_translation_witness :
    dictGet (extractParameters c1WitCalls) keyHvacMode = some (PValue.s ("heat")) :=
  c9_hvac_mode_translation.1 c1WitCalls (some [(("Hot Tank"), ⟨some 120, some 125⟩)]) 0
    rfl rfl

/-- Mirrors the building-selection loop shared by all write commands
(switch.py 142-145, climate.py 192-197 and 238-241): `building_id = None`,
then `for building in buildings: building_id = building.get("id"); break`
— i.e. the first building's id, or `None` when there is none. -/
def firstBuildingId (bs : List Building) : Option String :=
  match bs with
  | [] => none
  | b :: _ => b.id

/-- One vendor-client write call: the building id the `SensorlinxDevice`
helper was scoped with, the setter invoked, and the value passed. -/
structure VWrite where
  buildingId : Option String
  op : String
  value : PValue
  deriving DecidableEq

/-- Observable effects of one write command: the vendor writes issued and
the number of coordinator refresh requests. -/
structure CmdTrace where
  writes : List VWrite
  refreshes : Nat
  deriving DecidableEq

def opSetPermanentHd : String := "set_permanent_hd"
def opSetPermanentCd : String := "set_permanent_cd"
def opSetHvacModePriority : String := "set_hvac_mode_priority"
def opSetHotTankTargetTemp : String := "set_hot_tank_target_temp"
def opSetColdTankTargetTemp : String := "set_cold_tank_target_temp"

/-- Mirrors `SensorLinxSwitch._async_set_demand` (switch.py lines 128-167).
`writeOk` is whether the vendor setter call succeeds; when it raises, the
exception is caught at line 165 and the refresh request at line 163 is
never reached.  Missing data, missing device, or a falsy first-building id
cause an early return with no write and no refresh. -/
def setDemand (data : Option Snapshot) (did : DKey) (key : String) (state : Bool)
    (writeOk : Bool) : CmdTrace :=
  match data with
  | none => ⟨[], 0⟩
  | some s =>
    match dictGet s.devices did with
    | none => ⟨[], 0⟩
    | some _ =>
      let bid := firstBuildingId s.buildings
      if strOptTruthy bid then
        let wOpt : Option VWrite :=
          if key = keyPermanentHeatDemand then some ⟨bid, opSetPermanentHd, PValue.b state⟩
          else if key = keyPermanentCoolDemand then some ⟨bid, opSetPermanentCd, PValue.b state⟩
          else none
        match wOpt with
        | none => ⟨[], 1⟩
        | some w => if writeOk then ⟨[w], 1⟩ else ⟨[w], 0⟩
      else ⟨[], 0⟩

def strModeOff : String := "off"
def strModeHeat : String := "heat"
def strModeCool : String := "cool"
def strModeAuto : String := "auto"

/-- Mirrors the `SensorLinxClimate.hvac_mode` property (climate.py lines
128-150): `parameters.get("hvac_mode", "").lower()` then a string-to-mode
chain defaulting to auto.  Extraction only ever stores a string under this
key; any non-string value (whose `.lower()` would raise) is modelled as
the absent-key default. -/
def climateHvacMode (data : Option Snapshot) (did : DKey) : Option String :=
  match data with
  | none => none
  | some s =>
    match dictGet s.devices did with
    | none => none
    | some dev =>
      let mode := match dictGet dev.parameters keyHvacMode with
        | some (PValue.s str) => str.toLower
        | _ => ""
      if mode = strModeOff then some strModeOff
      else if mode = strModeHeat then some strModeHeat
      else if mode = strModeCool then some strModeCool
      else if mode = strModeAuto then some strModeAuto
      else some strModeAuto

/-- Mirrors `SensorLinxClimate.async_set_hvac_mode` (climate.py lines
224-254): after the data/device/building guards it issues exactly one
`set_hvac_mode_priority(hvac_mode.value)` write; the refresh request (line
252) sits in the same `try` after the write, so a raising write (caught at
line 253) skips the refresh. -/
def climateSetHvacMode (data : Option Snapshot) (did : DKey) (mode : String)
    (writeOk : Bool) : CmdTrace :=
  match data with
  | none => ⟨[], 0⟩
  | some s =>
    match dictGet s.devices did with
    | none => ⟨[], 0⟩
    | some _ =>
      let bid := firstBuildingId s.buildings
      if strOptTruthy bid then
        let w : VWrite := ⟨bid, opSetHvacModePriority, PValue.s mode⟩
        if writeOk then ⟨[w], 1⟩ else ⟨[w], 0⟩
      else ⟨[], 0⟩

/-- Mirrors `SensorLinxClimate.async_set_temperature` (climate.py lines
174-222): a missing `temperature` kwarg returns immediately; then the same
guards as `async_set_hvac_mode`; the tank setter is chosen by the current
hvac mode (heat→hot tank, cool→cold tank, anything else→hot tank); the
refresh again only follows a non-raising write.  The Celsius→Fahrenheit
conversion is vendor-library code and is modelled opaquely: the recorded
value is the requested temperature. -/
def climateSetTemperature (data : Option Snapshot) (did : DKey)
    (temperature : Option Int) (writeOk : Bool) : CmdTrace :=
  match temperature with
  | none => ⟨[], 0⟩
  | some t =>
    match data with
    | none => ⟨[], 0⟩
    | some s =>
      match dictGet s.devices did with
      | none => ⟨[], 0⟩
      | some _ =>
        let bid := firstBuildingId s.buildings
        if strOptTruthy bid then
          let mode := climateHvacMode (some s) did
          let w : VWrite :=
            if mode = some strModeHeat then ⟨bid, opSetHotTankTargetTemp, PValue.n t⟩
            else if mode = some strModeCool then ⟨bid, opSetColdTankTargetTemp, PValue.n t⟩
            else ⟨bid, opSetHotTankTargetTemp, PValue.n t⟩
          if writeOk then ⟨[w], 1⟩ else ⟨[w], 0⟩
        else ⟨[], 0⟩

/-- C4 counterexample: on a snapshot holding device d1 and building b1, a
raising `set_hvac_mode_priority` write (writeOk = false) leaves exactly
one issued write but ZERO refresh requests — refuting the claim that the
write-then-refresh pair happens regardless of whether the write raises. -/
theorem c4_counterexample :
    (climateSetHvacMode (some c6Snap) (some ("d1")) strModeCool false).writes
        = [⟨some ("b1"), opSetHvacModePriority, PValue.s strModeCool⟩]
    ∧ (climateSetHvacMode (some c6Snap) (some ("d1")) strModeCool false).refreshes = 0
    ∧ (climateSetHvacMode (some c6Snap) (some ("d1")) strModeCool false).refreshes ≠ 1 :=
  ⟨rfl, rfl, by decide⟩

/-- C4 (amended): invoking `async_set_hvac_mode` on a climate entity whose
device is in the snapshot and whose snapshot has a truthy first-building
id issues exactly one vendor write carrying the mode value; exactly one
refresh request follows when the write succeeds, and none when the write
raises (the exception is swallowed). -/
theorem c4_write_then_refresh (s : Snapshot) (did : DKey) (dev : DeviceOut) (mode : String)
    (writeOk : Bool)
    (hdev : dictGet s.devices did = some dev)
    (hbid : strOptTruthy (firstBuildingId s.buildings) = true) :
    (climateSetHvacMode (some s) did mode writeOk).writes
        = [⟨firstBuildingId s.buildings, opSetHvacModePriority, PValue.s mode⟩]
    ∧ (climateSetHvacMode (some s) did mode writeOk).refreshes
        = (if writeOk then 1 else 0) := by
  cases writeOk <;> simp [climateSetHvacMode, hdev, hbid]

/-- Witness for the amended C4 theorem at a concrete snapshot: a
successful cool-mode write issues one write and one refresh. -/
theorem c4_write_then_refresh_witness :
    (climateSetHvacMode (some c6Snap) (some ("d1")) strModeCool true).writes
        = [⟨some ("b1"), opSetHvacModePriority, PValue.s strModeCool⟩]
    ∧ (climateSetHvacMode (some c6Snap) (some ("d1")) strModeCool true).refreshes = 1 := by
  have h := c4_write_then_refresh c6Snap (some ("d1")) c6Dev strModeCool true rfl rfl
  exact ⟨h.1, h.2⟩

theorem writes_building (tr : CmdTrace) (bid : Option String)
    (h : tr.writes = [] ∨ ∃ op v, tr.writes = [⟨bid, op, v⟩]) :
    ∀ w, w ∈ tr.writes → w.buildingId = bid := by
  intro w hw
  rcases h with h | ⟨op, v, h⟩
  · rw [h] at hw
    cases hw
  · rw [h] at hw
    rw [List.mem_singleton.mp hw]

/-- C10: every write command scopes its vendor call with the id of the
first building of the snapshot's buildings sequence (every issued write
carries that id), and when the buildings sequence is empty or its first
building has no id, the command issues no vendor write and requests no
refresh. -/
theorem c10_first_building_scope (s : Snapshot) (did : DKey) (k : String) (st : Bool)
    (t : Int) (mode : String) (wOk : Bool) :
    ((s.buildings = [] ∨ ∃ b bs', s.buildings = b :: bs' ∧ b.id = none) →
      setDemand (some s) did k st wOk = ⟨[], 0⟩
      ∧ climateSetTemperature (some s) did (some t) wOk = ⟨[], 0⟩
      ∧ climateSetHvacMode (some s) did mode wOk = ⟨[], 0⟩)
    ∧ (∀ w, w ∈ (setDemand (some s) did k st wOk).writes →
        w.buildingId = firstBuildingId s.buildings)
    ∧ (∀ w, w ∈ (climateSetTemperature (some s) did (some t) wOk).writes →
        w.buildingId = firstBuildingId s.buildings)
    ∧ (∀ w, w ∈ (climateSetHvacMode (some s) did mode wOk).writes →
        w.buildingId = firstBuildingId s.buildings) := by
  have hsd : (setDemand (some s) did k st wOk).writes = []
      ∨ ∃ op v, (setDemand (some s) did k st wOk).writes
          = [⟨firstBuildingId s.buildings, op, v⟩] := by
    rcases hdev : dictGet s.devices did with _ | dv
    · left; simp [setDemand, hdev]
    · by_cases htr : strOptTruthy (firstBuildingId s.buildings) = true
      · by_cases h1 : k = keyPermanentHeatDemand
        · right
          refine ⟨opSetPermanentHd, PValue.b st, ?_⟩
          cases wOk <;> simp [setDemand, hdev, htr, h1]
        · by_cases h2 : k = keyPermanentCoolDemand
          · right
            refine ⟨opSetPermanentCd, PValue.b st, ?_⟩
            have hne : keyPermanentCoolDemand ≠ keyPermanentHeatDemand := by decide
            cases wOk <;> simp [setDemand, hdev, htr, h1, h2, hne]
          · left
            simp [setDemand, hdev, htr, h1, h2]
      · left
        simp [setDemand, hdev, htr]
  have hct : (climateSetTemperature (some s) did (some t) wOk).writes = []
      ∨ ∃ op v, (climateSetTemperature (some s) did (some t) wOk).writes
          = [⟨firstBuildingId s.buildings, op, v⟩] := by
    rcases hdev : dictGet s.devices did with _ | dv
    · left; simp [climateSetTemperature, hdev]
    · by_cases htr : strOptTruthy (firstBuildingId s.buildings) = true
      · by_cases hm1 : climateHvacMode (some s) did = some strModeHeat
        · right
          refine ⟨opSetHotTankTargetTemp, PValue.n t, ?_⟩
          cases wOk <;> simp [climateSetTemperature, hdev, htr, hm1]
        · by_cases hm2 : climateHvacMode (some s) did = some strModeCool
          · right
            refine ⟨opSetColdTankTargetTemp, PValue.n t, ?_⟩
            have hne : strModeCool ≠ strModeHeat := by decide
            cases wOk <;> simp [climateSetTemperature, hdev, htr, hm1, hm2, hne]
          · right
            refine ⟨opSetHotTankTargetTemp, PValue.n t, ?_⟩
            cases wOk <;> simp [climateSetTemperature, hdev, htr, hm1, hm2]
      · left
        simp [climateSetTemperature, hdev, htr]
  have hcm : (climateSetHvacMode (some s) did mode wOk).writes = []
      ∨ ∃ op v, (climateSetHvacMode (some s) did mode wOk).writes
          = [⟨firstBuildingId s.buildings, op, v⟩] := by
    rcases hdev : dictGet s.devices did with _ | dv
    · left; simp [climateSetHvacMode, hdev]
    · by_cases htr : strOptTruthy (firstBuildingId s.buildings) = true
      · right
        refine ⟨opSetHvacModePriority, PValue.s mode, ?_⟩
        cases wOk <;> simp [climateSetHvacMode, hdev, htr]
      · left
        simp [climateSetHvacMode, hdev, htr]
  refine ⟨?_, writes_building _ _ hsd, writes_building _ _ hct, writes_building _ _ hcm⟩
  intro h
  have hfb : firstBuildingId s.buildings = none := by
    rcases h with h | ⟨b, bs2, hb, hid⟩
    · rw [h]
      rfl
    · rw [hb]
      simpa [firstBuildingId] using hid
  have htr : ¬ strOptTruthy (firstBuildingId s.buildings) = true := by
    rw [hfb]
    decide
  refine ⟨?_, ?_, ?_⟩ <;> rcases hdev : dictGet s.devices did with _ | dv <;>
    simp [setDemand, climateSetTemperature, climateSetHvacMode, hdev, htr]

/-- Snapshot with a device but an empty buildings sequence. -/
def c10Snap : Snapshot :=
  ⟨some ("profile"), [], [(some ("d1"), c6Dev)]⟩

/-- Witness for C10 at concrete inputs: with no buildings, a demand write
and a mode write are both suppressed (no write, no refresh), and on the
one-building snapshot every issued mode write carries building b1's id. -/
theorem c10_first_building_scope_witness :
    setDemand (some c10Snap) (some ("d1")) keyPermanentHeatDemand true true = ⟨[], 0⟩
    ∧ climateSetHvacMode (some c10Snap) (some ("d1")) strModeCool true = ⟨[], 0⟩
    ∧ (⟨some ("b1"), opSetHvacModePriority, PValue.s strModeCool⟩ : VWrite).buildingId
        = firstBuildingId c6Snap.buildings := by
  have h := (c10_first_building_scope c10Snap (some ("d1")) keyPermanentHeatDemand true
    21 strModeCool true).1 (Or.inl rfl)
  have h2 := (c10_first_building_scope c6Snap (some ("d1")) keyPermanentHeatDemand true
    21 strModeCool true).2.2.2
    ⟨some ("b1"), opSetHvacModePriority, PValue.s strModeCool⟩ (by decide)
  exact ⟨h.1, h.2.2, h2⟩

/-- Device whose warm-weather shutdown sits at the disabled sentinel and
whose cold-weather shutdown holds another numeric value. -/
def c8Dev : DeviceOut :=
  ⟨⟨some ("d8"), none, some ("Boiler"), some ("heat_pump")⟩,
   [(keyWarmWeatherShutdown, PValue.n 32), (keyColdWeatherShutdown, PValue.n 80)]⟩

/-- Snapshot holding the C8 device. -/
def c8Snap : Snapshot :=
  ⟨some ("profile"), [⟨some ("b1")⟩], [(some ("d8"), c8Dev)]⟩

/-- Witness for C8 at a concrete snapshot: a shutdown threshold of 32
reads as off and one of 80 reads as on. -/
theorem c8_shutdown_sentinel_witness :
    binarySensorIsOn (some c8Snap) (some ("d8")) keyWarmWeatherShutdown = some false
    ∧ binarySensorIsOn (some c8Snap) (some ("d8")) keyColdWeatherShutdown = some true :=
  ⟨(c8_shutdown_sentinel c8Snap (some ("d8")) c8Dev keyWarmWeatherShutdown 32 rfl
      (Or.inl rfl) rfl).2.1 rfl,
   (c8_shutdown_sentinel c8Snap (some ("d8")) c8Dev keyColdWeatherShutdown 80 rfl
      (Or.inr rfl) rfl).2.2 (by decide)⟩
